import Mathlib

/-!
Shallow embedding of the resilient external-call client of
`src/services/external.service.ts` (class `ExternalService`): the circuit
breaker state machine (`checkCircuitBreaker`, `registerSuccess`,
`registerFailure`, `getCircuitBreakerStats`), the backoff computation
(`calculateRetryDelay`), and the retry loop of `request`.  Timestamps are
integers (milliseconds, the values `Date.now()` returns), JS numbers in
the backoff computation are rationals, and the external collaborators
(transport, clock, authentication provider) are explicit inputs.
-/

/-- Configuration `Required<CircuitBreakerOptions>` of the source; the
constructor resolves every field to a default, so all fields are total
here. -/
structure CircuitBreakerOptions where
  enabled : Bool
  failureThreshold : Nat
  resetTimeoutMs : Nat
  halfOpenRequestThreshold : Nat
  deriving DecidableEq, Repr

/-- Circuit state: the string union `'closed' | 'open' | 'half-open'` of
the source (`opened` stands for `'open'`, a Lean keyword). -/
inductive CircuitState where
  | closed
  | opened
  | halfOpen
  deriving DecidableEq, Repr

/-- Mutable instance fields of `ExternalService` that the breaker logic
reads and writes: `circuitState`, `failureCount`, `lastFailureTime`,
`halfOpenRequests`.  `lastFailureTime = 0` encodes "never failed", as in
the source where the field is initialised to `0`. -/
structure BreakerState where
  circuitState : CircuitState
  failureCount : Nat
  lastFailureTime : Int
  halfOpenRequests : Nat
  deriving DecidableEq, Repr

/-- Field initialisers of the class (source lines 53-56). -/
def initBreakerState : BreakerState :=
  { circuitState := .closed, failureCount := 0, lastFailureTime := 0,
    halfOpenRequests := 0 }

/-- Rejection reasons thrown by `checkCircuitBreaker`: the plain `Error`
"circuit breaker is open" and "is half-open and request limit reached". -/
inductive BreakerErr where
  | circuitOpen
  | halfOpenLimit
  deriving DecidableEq, Repr

/-- Method `checkCircuitBreaker` (source lines 107-147).  Returns the
updated state paired with the thrown error, if any.  In the source the
`'open'` branch mutates `this.circuitState` to `'half-open'` and control
then falls through to the separate `if (this.circuitState === 'half-open')`
block; the fall-through is flattened here by repeating the half-open
limit check inside the transition branch, and a mutation performed before
a throw persists (the state component is returned in both cases). -/
def checkCircuitBreaker (cb : CircuitBreakerOptions) (s : BreakerState)
    (now : Int) : BreakerState × Option BreakerErr :=
  if !cb.enabled then (s, none)
  else if s.circuitState = .opened then
    if now - s.lastFailureTime > (cb.resetTimeoutMs : Int) then
      let s1 : BreakerState :=
        { s with circuitState := .halfOpen, halfOpenRequests := 0 }
      if s1.halfOpenRequests ≥ cb.halfOpenRequestThreshold then
        (s1, some .halfOpenLimit)
      else (s1, none)
    else (s, some .circuitOpen)
  else if s.circuitState = .halfOpen then
    if s.halfOpenRequests ≥ cb.halfOpenRequestThreshold then
      (s, some .halfOpenLimit)
    else (s, none)
  else (s, none)

/-- Method `registerSuccess` (source lines 153-175). -/
def registerSuccess (cb : CircuitBreakerOptions) (s : BreakerState) :
    BreakerState :=
  if !cb.enabled then s
  else if s.circuitState = .halfOpen then
    { s with circuitState := .closed, failureCount := 0, halfOpenRequests := 0 }
  else if s.circuitState = .closed then
    if s.failureCount > 0 then { s with failureCount := 0 } else s
  else s

/-- Method `registerFailure` (source lines 181-208): stamps
`lastFailureTime`, re-opens from `'half-open'`, and in `'closed'`
increments `failureCount`, opening once it reaches `failureThreshold`. -/
def registerFailure (cb : CircuitBreakerOptions) (s : BreakerState)
    (now : Int) : BreakerState :=
  if !cb.enabled then s
  else
    let s1 : BreakerState := { s with lastFailureTime := now }
    if s1.circuitState = .halfOpen then { s1 with circuitState := .opened }
    else if s1.circuitState = .closed then
      let s2 : BreakerState := { s1 with failureCount := s1.failureCount + 1 }
      if s2.failureCount ≥ cb.failureThreshold then
        { s2 with circuitState := .opened }
      else s2
    else s1

/-- Admission step of `request` (source lines 271-284):
`checkCircuitBreaker`, then — when it passed, the breaker is enabled and
the state is `'half-open'` — the `halfOpenRequests` increment performed
by the caller. -/
def requestAdmission (cb : CircuitBreakerOptions) (s : BreakerState)
    (now : Int) : BreakerState × Option BreakerErr :=
  match checkCircuitBreaker cb s now with
  | (s1, some e) => (s1, some e)
  | (s1, none) =>
    if cb.enabled ∧ s1.circuitState = .halfOpen then
      ({ s1 with halfOpenRequests := s1.halfOpenRequests + 1 }, none)
    else (s1, none)

/-- Return shape of `getCircuitBreakerStats`. -/
structure BreakerStats where
  enabled : Bool
  state : CircuitState
  failureCount : Nat
  lastFailureTime : Option Int
  deriving DecidableEq, Repr

/-- Method `getCircuitBreakerStats` (source lines 652-664). -/
def getCircuitBreakerStats (cb : CircuitBreakerOptions) (s : BreakerState) :
    BreakerStats :=
  { enabled := cb.enabled, state := s.circuitState,
    failureCount := s.failureCount,
    lastFailureTime :=
      if s.lastFailureTime > 0 then some s.lastFailureTime else none }

/-- One breaker interaction, as issued by `request`: an admission check,
a success registration, or a failure registration.  Operations that read
`Date.now()` carry the value the clock returned. -/
inductive BreakerOp where
  | check (now : Int)
  | success
  | failure (now : Int)
  deriving DecidableEq, Repr

def applyBreakerOp (cb : CircuitBreakerOptions) (s : BreakerState) :
    BreakerOp → BreakerState
  | .check now => (requestAdmission cb s now).1
  | .success => registerSuccess cb s
  | .failure now => registerFailure cb s now

def applyBreakerOps (cb : CircuitBreakerOptions) (s : BreakerState)
    (ops : List BreakerOp) : BreakerState :=
  ops.foldl (applyBreakerOp cb) s

/-- Iterated `registerFailure`: `applyFailures cb clock n s` registers
`n` consecutive failures, the `(j+1)`-th at time `clock j`. -/
def applyFailures (cb : CircuitBreakerOptions) (clock : Nat → Int) :
    Nat → BreakerState → BreakerState
  | 0, s => s
  | n + 1, s => registerFailure cb (applyFailures cb clock n s) (clock n)

/-- Iterated admission attempts against one breaker: each step performs
the admission sequence of `request` (rejections leave the state as the
check left it). -/
def iterAdmissions (cb : CircuitBreakerOptions) (now : Int) :
    Nat → BreakerState → BreakerState
  | 0, s => s
  | n + 1, s => (requestAdmission cb (iterAdmissions cb now n s) now).1

-- Helper: below the threshold, consecutive failures keep the breaker
-- closed with an exact count.
theorem applyFailures_closed (cb : CircuitBreakerOptions) (clock : Nat → Int)
    (s : BreakerState) (hen : cb.enabled = true)
    (hc : s.circuitState = .closed) (h0 : s.failureCount = 0) :
    ∀ j, j < cb.failureThreshold →
      (applyFailures cb clock j s).circuitState = .closed ∧
      (applyFailures cb clock j s).failureCount = j := by
  intro j
  induction j with
  | zero => exact fun _ => ⟨hc, h0⟩
  | succ n ih =>
    intro hlt
    have hn := ih (Nat.lt_of_succ_lt hlt)
    have hnk : ¬ cb.failureThreshold ≤ n + 1 := Nat.not_le.mpr hlt
    simp only [applyFailures]
    simp [registerFailure, hen, hn.1, hn.2, hnk]

/-- C3: with the breaker enabled and `failureThreshold = k ≥ 1`, exactly
`k` consecutive `registerFailure` calls from a fresh `'closed'` state
open the circuit; before the `k`-th call the state is still `'closed'`,
and a `registerSuccess` there resets `failureCount` to 0. -/
theorem breaker_opens_after_threshold (cb : CircuitBreakerOptions)
    (clock : Nat → Int) (s : BreakerState) (hen : cb.enabled = true)
    (hk : 1 ≤ cb.failureThreshold) (hc : s.circuitState = .closed)
    (h0 : s.failureCount = 0) :
    (applyFailures cb clock cb.failureThreshold s).circuitState = .opened ∧
    ∀ j < cb.failureThreshold,
      (applyFailures cb clock j s).circuitState = .closed ∧
      (registerSuccess cb (applyFailures cb clock j s)).failureCount = 0 := by
  constructor
  · obtain ⟨k, hk'⟩ : ∃ k, cb.failureThreshold = k + 1 :=
      ⟨cb.failureThreshold - 1, (Nat.succ_pred_eq_of_pos hk).symm⟩
    have hpred := applyFailures_closed cb clock s hen hc h0 k (by omega)
    rw [hk']
    simp only [applyFailures]
    have hge : cb.failureThreshold ≤ k + 1 := by omega
    simp [registerFailure, hen, hpred.1, hpred.2, hge]
  · intro j hj
    have hcl := applyFailures_closed cb clock s hen hc h0 j hj
    refine ⟨hcl.1, ?_⟩
    by_cases hfc : (applyFailures cb clock j s).failureCount > 0
    · simp [registerSuccess, hen, hcl.1, hfc]
    · simp [registerSuccess, hen, hcl.1, hfc]
      omega

/-- C3 witness at `k = 3`. -/
theorem breaker_opens_after_threshold_witness :
    ((⟨true, 3, 30000, 1⟩ : CircuitBreakerOptions).enabled = true ∧
     1 ≤ (⟨true, 3, 30000, 1⟩ : CircuitBreakerOptions).failureThreshold ∧
     initBreakerState.circuitState = .closed ∧
     initBreakerState.failureCount = 0) ∧
    ((applyFailures ⟨true, 3, 30000, 1⟩ (fun i => i) 3
        initBreakerState).circuitState = .opened ∧
     ∀ j < (⟨true, 3, 30000, 1⟩ : CircuitBreakerOptions).failureThreshold,
       (applyFailures ⟨true, 3, 30000, 1⟩ (fun i => i) j
          initBreakerState).circuitState = .closed ∧
       (registerSuccess ⟨true, 3, 30000, 1⟩
          (applyFailures ⟨true, 3, 30000, 1⟩ (fun i => i) j
            initBreakerState)).failureCount = 0) :=
  ⟨⟨rfl, by decide, rfl, rfl⟩,
   breaker_opens_after_threshold _ _ _ rfl (by decide) rfl rfl⟩

/-- C8: any `registerFailure` while the breaker is `'half-open'`
immediately transitions it to `'open'`, for every threshold and count. -/
theorem halfOpen_failure_reopens (cb : CircuitBreakerOptions)
    (s : BreakerState) (now : Int) (hen : cb.enabled = true)
    (hho : s.circuitState = .halfOpen) :
    (registerFailure cb s now).circuitState = .opened := by
  simp [registerFailure, hen, hho]

/-- C8 witness: a half-open breaker with `failureThreshold = 100` and
`failureCount = 0` re-opens on one failure. -/
theorem halfOpen_failure_reopens_witness :
    ((⟨true, 100, 30000, 1⟩ : CircuitBreakerOptions).enabled = true ∧
     (⟨.halfOpen, 0, 5, 0⟩ : BreakerState).circuitState = .halfOpen) ∧
    (registerFailure ⟨true, 100, 30000, 1⟩ ⟨.halfOpen, 0, 5, 0⟩
       77).circuitState = .opened :=
  ⟨⟨rfl, rfl⟩, halfOpen_failure_reopens _ _ 77 rfl rfl⟩

/-- C1 counterexample: at elapsed time exactly equal to the reset
timeout (`now - lastFailureTime = resetTimeoutMs = 30000`) the claim
demands a transition to `'half-open'` and admission, but
`checkCircuitBreaker` uses the strict comparison
`now - lastFailureTime > resetTimeoutMs` and rejects, leaving the state
`'open'`. -/
theorem open_reset_timeout_boundary_cex :
    (checkCircuitBreaker ⟨true, 5, 30000, 1⟩ ⟨.opened, 5, 0, 0⟩ 30000).2 =
      some .circuitOpen ∧
    (checkCircuitBreaker ⟨true, 5, 30000, 1⟩
      ⟨.opened, 5, 0, 0⟩ 30000).1.circuitState = .opened := by
  constructor <;> rfl

/-- C1 (amended): while `'open'`, `checkCircuitBreaker` rejects with the
circuit-open error whenever `now - lastFailureTime ≤ resetTimeoutMs`
(state untouched), and once `now - lastFailureTime > resetTimeoutMs` it
transitions to `'half-open'` with `halfOpenRequests = 0` and — provided
`halfOpenRequestThreshold ≥ 1` — admits the request. -/
theorem open_respects_strict_reset_timeout (cb : CircuitBreakerOptions)
    (s : BreakerState) (now : Int) (hen : cb.enabled = true)
    (ho : s.circuitState = .opened) :
    (now - s.lastFailureTime ≤ (cb.resetTimeoutMs : Int) →
      checkCircuitBreaker cb s now = (s, some .circuitOpen)) ∧
    ((cb.resetTimeoutMs : Int) < now - s.lastFailureTime →
      1 ≤ cb.halfOpenRequestThreshold →
      checkCircuitBreaker cb s now =
        ({ s with circuitState := .halfOpen, halfOpenRequests := 0 },
         none)) := by
  constructor
  · intro hle
    simp [checkCircuitBreaker, hen, ho, not_lt.mpr hle]
  · intro hgt hth
    have hth0 : ¬ cb.halfOpenRequestThreshold ≤ 0 := by omega
    simp [checkCircuitBreaker, hen, ho, hgt, hth0]

/-- C1 witness: breaker `{enabled, threshold 5, resetTimeout 30000,
halfOpenRequestThreshold 1}`, open since time 0, checked at time 40000. -/
theorem open_respects_strict_reset_timeout_witness :
    ((⟨true, 5, 30000, 1⟩ : CircuitBreakerOptions).enabled = true ∧
     (⟨.opened, 5, 0, 0⟩ : BreakerState).circuitState = .opened) ∧
    ((40000 - (⟨.opened, 5, 0, 0⟩ : BreakerState).lastFailureTime ≤
        ((⟨true, 5, 30000, 1⟩ : CircuitBreakerOptions).resetTimeoutMs : Int) →
      checkCircuitBreaker ⟨true, 5, 30000, 1⟩ ⟨.opened, 5, 0, 0⟩ 40000 =
        (⟨.opened, 5, 0, 0⟩, some .circuitOpen)) ∧
     (((⟨true, 5, 30000, 1⟩ : CircuitBreakerOptions).resetTimeoutMs : Int) <
        40000 - (⟨.opened, 5, 0, 0⟩ : BreakerState).lastFailureTime →
      1 ≤ (⟨true, 5, 30000, 1⟩ : CircuitBreakerOptions).halfOpenRequestThreshold →
      checkCircuitBreaker ⟨true, 5, 30000, 1⟩ ⟨.opened, 5, 0, 0⟩ 40000 =
        (⟨.halfOpen, 5, 0, 0⟩, none))) :=
  ⟨⟨rfl, rfl⟩,
   open_respects_strict_reset_timeout ⟨true, 5, 30000, 1⟩
     ⟨.opened, 5, 0, 0⟩ 40000 rfl rfl⟩

/-- C9: while `'half-open'` with limit `h`, an admission succeeds and
increments the in-flight counter exactly when the counter is below `h`
(rejecting otherwise with the state unchanged); iterating admissions
from a fresh half-open phase leaves `min n h` admitted after `n` tries,
and every try past the `h`-th is rejected. -/
theorem halfOpen_bounded_admissions (cb : CircuitBreakerOptions)
    (s : BreakerState) (now : Int) (hen : cb.enabled = true)
    (hho : s.circuitState = .halfOpen) :
    ((s.halfOpenRequests < cb.halfOpenRequestThreshold →
       requestAdmission cb s now =
         ({ s with halfOpenRequests := s.halfOpenRequests + 1 }, none)) ∧
     (cb.halfOpenRequestThreshold ≤ s.halfOpenRequests →
       requestAdmission cb s now = (s, some .halfOpenLimit))) ∧
    (s.halfOpenRequests = 0 →
      (∀ n, (iterAdmissions cb now n s).circuitState = .halfOpen ∧
        (iterAdmissions cb now n s).halfOpenRequests =
          min n cb.halfOpenRequestThreshold) ∧
      ∀ n, cb.halfOpenRequestThreshold ≤ n →
        (requestAdmission cb (iterAdmissions cb now n s) now).2 =
          some .halfOpenLimit) := by
  have step : ∀ t : BreakerState, t.circuitState = .halfOpen →
      (t.halfOpenRequests < cb.halfOpenRequestThreshold →
        requestAdmission cb t now =
          ({ t with halfOpenRequests := t.halfOpenRequests + 1 }, none)) ∧
      (cb.halfOpenRequestThreshold ≤ t.halfOpenRequests →
        requestAdmission cb t now = (t, some .halfOpenLimit)) := by
    intro t ht
    constructor
    · intro hlt
      have hnot : ¬ cb.halfOpenRequestThreshold ≤ t.halfOpenRequests :=
        Nat.not_le.mpr hlt
      simp [requestAdmission, checkCircuitBreaker, hen, ht, hnot]
    · intro hge
      simp [requestAdmission, checkCircuitBreaker, hen, ht, hge]
  refine ⟨step s hho, ?_⟩
  intro h0
  have iter : ∀ n, (iterAdmissions cb now n s).circuitState = .halfOpen ∧
      (iterAdmissions cb now n s).halfOpenRequests =
        min n cb.halfOpenRequestThreshold := by
    intro n
    induction n with
    | zero => simpa [iterAdmissions, h0] using hho
    | succ m ih =>
      by_cases hm : m < cb.halfOpenRequestThreshold
      · have hcnt : (iterAdmissions cb now m s).halfOpenRequests <
            cb.halfOpenRequestThreshold := by
          rw [ih.2]; omega
        have := (step _ ih.1).1 hcnt
        simp only [iterAdmissions, this]
        refine ⟨ih.1, ?_⟩
        simp only [ih.2]
        omega
      · have hcnt : cb.halfOpenRequestThreshold ≤
            (iterAdmissions cb now m s).halfOpenRequests := by
          rw [ih.2]; omega
        have := (step _ ih.1).2 hcnt
        simp only [iterAdmissions, this]
        refine ⟨ih.1, ?_⟩
        rw [ih.2]
        omega
  refine ⟨iter, ?_⟩
  intro n hn
  have hcnt : cb.halfOpenRequestThreshold ≤
      (iterAdmissions cb now n s).halfOpenRequests := by
    rw [(iter n).2]; omega
  rw [(step _ (iter n).1).2 hcnt]

/-- C9 witness: limit `h = 2`, fresh half-open phase. -/
theorem halfOpen_bounded_admissions_witness :
    ((⟨true, 5, 30000, 2⟩ : CircuitBreakerOptions).enabled = true ∧
     (⟨.halfOpen, 5, 9, 0⟩ : BreakerState).circuitState = .halfOpen) ∧
    (((⟨.halfOpen, 5, 9, 0⟩ : BreakerState).halfOpenRequests <
        (⟨true, 5, 30000, 2⟩ : CircuitBreakerOptions).halfOpenRequestThreshold →
       requestAdmission ⟨true, 5, 30000, 2⟩ ⟨.halfOpen, 5, 9, 0⟩ 10 =
         (⟨.halfOpen, 5, 9, 1⟩, none)) ∧
     ((⟨true, 5, 30000, 2⟩ : CircuitBreakerOptions).halfOpenRequestThreshold ≤
        (⟨.halfOpen, 5, 9, 0⟩ : BreakerState).halfOpenRequests →
       requestAdmission ⟨true, 5, 30000, 2⟩ ⟨.halfOpen, 5, 9, 0⟩ 10 =
         (⟨.halfOpen, 5, 9, 0⟩, some .halfOpenLimit))) ∧
    ((⟨.halfOpen, 5, 9, 0⟩ : BreakerState).halfOpenRequests = 0 →
      (∀ n, (iterAdmissions ⟨true, 5, 30000, 2⟩ 10 n
          ⟨.halfOpen, 5, 9, 0⟩).circuitState = .halfOpen ∧
        (iterAdmissions ⟨true, 5, 30000, 2⟩ 10 n
          ⟨.halfOpen, 5, 9, 0⟩).halfOpenRequests =
          min n (⟨true, 5, 30000, 2⟩ : CircuitBreakerOptions).halfOpenRequestThreshold) ∧
      ∀ n, (⟨true, 5, 30000, 2⟩ : CircuitBreakerOptions).halfOpenRequestThreshold ≤ n →
        (requestAdmission ⟨true, 5, 30000, 2⟩
          (iterAdmissions ⟨true, 5, 30000, 2⟩ 10 n ⟨.halfOpen, 5, 9, 0⟩)
          10).2 = some .halfOpenLimit) :=
  ⟨⟨rfl, rfl⟩,
   halfOpen_bounded_admissions ⟨true, 5, 30000, 2⟩ ⟨.halfOpen, 5, 9, 0⟩
     10 rfl rfl⟩

-- Helper: with the breaker disabled every breaker interaction is the
-- identity on the runtime state.
theorem applyBreakerOp_disabled (cb : CircuitBreakerOptions)
    (hdis : cb.enabled = false) (s : BreakerState) (op : BreakerOp) :
    applyBreakerOp cb s op = s := by
  cases op with
  | check now => simp [applyBreakerOp, requestAdmission, checkCircuitBreaker, hdis]
  | success => simp [applyBreakerOp, registerSuccess, hdis]
  | failure now => simp [applyBreakerOp, registerFailure, hdis]

/-- C10: with the breaker disabled (`enabled = false`, the base-class
default), admission checks never reject, `registerSuccess` and
`registerFailure` are no-ops, the runtime state stays at its initial
value under every operation sequence, and `getCircuitBreakerStats`
always reports `{enabled: false, state: 'closed', failureCount: 0,
lastFailureTime: null}`. -/
theorem disabled_breaker_frozen (cb : CircuitBreakerOptions)
    (hdis : cb.enabled = false) :
    (∀ s now, checkCircuitBreaker cb s now = (s, none)) ∧
    (∀ s, registerSuccess cb s = s) ∧
    (∀ s now, registerFailure cb s now = s) ∧
    (∀ ops, applyBreakerOps cb initBreakerState ops = initBreakerState) ∧
    (∀ ops, getCircuitBreakerStats cb (applyBreakerOps cb initBreakerState ops) =
      { enabled := false, state := .closed, failureCount := 0,
        lastFailureTime := none }) := by
  have hfrozen : ∀ ops, applyBreakerOps cb initBreakerState ops =
      initBreakerState := by
    intro ops
    induction ops with
    | nil => rfl
    | cons op rest ih =>
      show applyBreakerOps cb (applyBreakerOp cb initBreakerState op) rest =
        initBreakerState
      rw [applyBreakerOp_disabled cb hdis, ih]
  refine ⟨?_, ?_, ?_, hfrozen, ?_⟩
  · intro s now; simp [checkCircuitBreaker, hdis]
  · intro s; simp [registerSuccess, hdis]
  · intro s now; simp [registerFailure, hdis]
  · intro ops
    rw [hfrozen ops]
    simp [getCircuitBreakerStats, initBreakerState, hdis]

/-- C10 witness: the base-class default configuration
`{enabled: false, failureThreshold: 5, resetTimeoutMs: 30000,
halfOpenRequestThreshold: 1}`. -/
theorem disabled_breaker_frozen_witness :
    ((⟨false, 5, 30000, 1⟩ : CircuitBreakerOptions).enabled = false) ∧
    ((∀ s now, checkCircuitBreaker ⟨false, 5, 30000, 1⟩ s now = (s, none)) ∧
     (∀ s, registerSuccess ⟨false, 5, 30000, 1⟩ s = s) ∧
     (∀ s now, registerFailure ⟨false, 5, 30000, 1⟩ s now = s) ∧
     (∀ ops, applyBreakerOps ⟨false, 5, 30000, 1⟩ initBreakerState ops =
       initBreakerState) ∧
     (∀ ops, getCircuitBreakerStats ⟨false, 5, 30000, 1⟩
        (applyBreakerOps ⟨false, 5, 30000, 1⟩ initBreakerState ops) =
       { enabled := false, state := .closed, failureCount := 0,
         lastFailureTime := none })) :=
  ⟨rfl, disabled_breaker_frozen ⟨false, 5, 30000, 1⟩ rfl⟩

/-- Configuration `Required<RetryOptions>` of the source (`retries`,
`factor`, `minTimeout`, `maxTimeout`, `randomize`); the numeric fields
are JS numbers, modelled as rationals. -/
structure RetryOptions where
  retries : Nat
  factor : ℚ
  minTimeout : ℚ
  maxTimeout : ℚ
  randomize : Bool
  deriving DecidableEq, Repr

/-- Method `calculateRetryDelay` (source lines 528-539), with the call
to `Math.random()` made an explicit input `rand` (a value in `[0, 1)`):
exponential backoff `minTimeout * factor ^ (attempt - 1)`, jitter factor
`0.5 + rand` when `randomize`, then
`Math.max(minTimeout, Math.min(delay, maxTimeout))`. -/
def calculateRetryDelay (ro : RetryOptions) (attempt : Nat) (rand : ℚ) : ℚ :=
  let delay := ro.minTimeout * ro.factor ^ (attempt - 1)
  let delay1 := if ro.randomize then delay * (1 / 2 + rand) else delay
  max ro.minTimeout (min delay1 ro.maxTimeout)

/-- C5: for every attempt `n ≥ 1` (with `0 ≤ minTimeout ≤ maxTimeout`,
`factor ≥ 1`, `rand ∈ [0, 1)`): with jitter the result is the clamp of
`minTimeout * factor ^ (n-1)` times a factor `0.5 + rand ∈ [0.5, 1.5]`;
the result always lies in `[minTimeout, maxTimeout]`; and with jitter
disabled the delay is non-decreasing in `n`. -/
theorem backoff_bounds_and_monotone (ro : RetryOptions) (attempt : Nat)
    (rand : ℚ) (ha : 1 ≤ attempt) (hmin : 0 ≤ ro.minTimeout)
    (hmm : ro.minTimeout ≤ ro.maxTimeout) (hf : 1 ≤ ro.factor)
    (hr0 : 0 ≤ rand) (hr1 : rand < 1) :
    (ro.randomize = true →
      calculateRetryDelay ro attempt rand =
        max ro.minTimeout
          (min (ro.minTimeout * ro.factor ^ (attempt - 1) * (1 / 2 + rand))
            ro.maxTimeout) ∧
      (1 / 2 : ℚ) ≤ 1 / 2 + rand ∧ (1 / 2 + rand : ℚ) ≤ 3 / 2) ∧
    (ro.minTimeout ≤ calculateRetryDelay ro attempt rand ∧
      calculateRetryDelay ro attempt rand ≤ ro.maxTimeout) ∧
    (ro.randomize = false →
      calculateRetryDelay ro attempt rand ≤
        calculateRetryDelay ro (attempt + 1) rand) := by
  refine ⟨?_, ⟨?_, ?_⟩, ?_⟩
  · intro hrand
    refine ⟨by simp [calculateRetryDelay, hrand], by linarith, by linarith⟩
  · exact le_max_left _ _
  · exact max_le hmm (min_le_right _ _)
  · intro hnr
    simp only [calculateRetryDelay, hnr, Bool.false_eq_true, if_false]
    have hpow : ro.factor ^ (attempt - 1) ≤ ro.factor ^ (attempt + 1 - 1) :=
      pow_le_pow_right₀ hf (by omega)
    have hbase : ro.minTimeout * ro.factor ^ (attempt - 1) ≤
        ro.minTimeout * ro.factor ^ (attempt + 1 - 1) :=
      mul_le_mul_of_nonneg_left hpow hmin
    exact max_le_max le_rfl (min_le_min hbase le_rfl)

/-- C5 witness: defaults `minTimeout = 1000`, `maxTimeout = 10000`,
`factor = 2`, jitter on, at attempt 2 with `rand = 1/3`. -/
theorem backoff_bounds_and_monotone_witness :
    (1 ≤ 2 ∧ (0 : ℚ) ≤ (⟨3, 2, 1000, 10000, true⟩ : RetryOptions).minTimeout ∧
     (⟨3, 2, 1000, 10000, true⟩ : RetryOptions).minTimeout ≤
       (⟨3, 2, 1000, 10000, true⟩ : RetryOptions).maxTimeout ∧
     (1 : ℚ) ≤ (⟨3, 2, 1000, 10000, true⟩ : RetryOptions).factor ∧
     (0 : ℚ) ≤ 1 / 3 ∧ (1 / 3 : ℚ) < 1) ∧
    (((⟨3, 2, 1000, 10000, true⟩ : RetryOptions).randomize = true →
      calculateRetryDelay ⟨3, 2, 1000, 10000, true⟩ 2 (1 / 3) =
        max (⟨3, 2, 1000, 10000, true⟩ : RetryOptions).minTimeout
          (min ((⟨3, 2, 1000, 10000, true⟩ : RetryOptions).minTimeout *
              (⟨3, 2, 1000, 10000, true⟩ : RetryOptions).factor ^ (2 - 1) *
              (1 / 2 + 1 / 3))
            (⟨3, 2, 1000, 10000, true⟩ : RetryOptions).maxTimeout) ∧
      (1 / 2 : ℚ) ≤ 1 / 2 + 1 / 3 ∧ (1 / 2 + 1 / 3 : ℚ) ≤ 3 / 2) ∧
     ((⟨3, 2, 1000, 10000, true⟩ : RetryOptions).minTimeout ≤
        calculateRetryDelay ⟨3, 2, 1000, 10000, true⟩ 2 (1 / 3) ∧
      calculateRetryDelay ⟨3, 2, 1000, 10000, true⟩ 2 (1 / 3) ≤
        (⟨3, 2, 1000, 10000, true⟩ : RetryOptions).maxTimeout) ∧
     ((⟨3, 2, 1000, 10000, true⟩ : RetryOptions).randomize = false →
      calculateRetryDelay ⟨3, 2, 1000, 10000, true⟩ 2 (1 / 3) ≤
        calculateRetryDelay ⟨3, 2, 1000, 10000, true⟩ 3 (1 / 3))) :=
  ⟨⟨by norm_num, by norm_num, by norm_num, by norm_num, by norm_num,
    by norm_num⟩,
   backoff_bounds_and_monotone ⟨3, 2, 1000, 10000, true⟩ 2 (1 / 3)
     (by norm_num) (by norm_num) (by norm_num) (by norm_num) (by norm_num)
     (by norm_num)⟩

/-- Errors constructed and thrown along the request path of the source.
`retriesExhausted` is modelled from the spec: the spec names a
`RetriesExhaustedError{cause}` wrapper, but no such class exists anywhere
in the source — the constructor exists here only so the spec claim about
it can be stated and compared with what the code throws. -/
inductive JsError where
  | retryable (status : Nat)
  | httpTerminal (status : Nat)
  | parseFailure
  | abortError
  | fetchFailure
  | unknownThrown
  | breakerRejection (e : BreakerErr)
  | authFailure
  | loopSafeguard
  | retriesExhausted (cause : JsError)
  deriving DecidableEq, Repr

/-- Discriminates whether a propagated error is the spec's
`RetriesExhaustedError` wrapper. -/
def JsError.isWrapped : JsError → Bool
  | .retriesExhausted _ => true
  | _ => false

/-- Values thrown by `fetch` itself, as discriminated by the catch block
(source lines 410-446): an `AbortError`, a `RetryableError` instance, any
other `Error` (network or DNS failure), or a non-`Error` throw. -/
inductive FetchErr where
  | abortErr
  | retryableThrown (status : Nat)
  | otherError
  | nonError
  deriving DecidableEq, Repr

/-- Outcome of one transport attempt: a response carrying its HTTP
status, whether `content-length` is `'0'`, and the JSON parse result
(`none` when `response.json()` rejects); or a thrown value. -/
inductive TransportOutcome where
  | response (status : Nat) (emptyBody : Bool) (parsed : Option Nat)
  | thrown (e : FetchErr)
  deriving DecidableEq, Repr

/-- Observable interactions of one `request` call with its
collaborators, in program order. -/
inductive CallEvent where
  | authInvoked
  | fetchAttempt (n : Nat)
  | successRecorded
  | failureRecorded
  deriving DecidableEq, Repr

def CallEvent.isFetch : CallEvent → Bool
  | .fetchAttempt _ => true
  | _ => false

def fetchCount (evs : List CallEvent) : Nat :=
  (evs.filter CallEvent.isFetch).length

instance {ε α : Type} [DecidableEq ε] [DecidableEq α] :
    DecidableEq (Except ε α) := fun a b =>
  match a, b with
  | .ok x, .ok y =>
    if h : x = y then isTrue (by rw [h])
    else isFalse (fun hc => h (Except.ok.inj hc))
  | .error x, .error y =>
    if h : x = y then isTrue (by rw [h])
    else isFalse (fun hc => h (Except.error.inj hc))
  | .ok _, .error _ => isFalse (fun hc => Except.noConfusion hc)
  | .error _, .ok _ => isFalse (fun hc => Except.noConfusion hc)

/-- Result of one `request` call: the returned value or thrown error,
the breaker state left behind, and the interaction trace.  A parsed body
is abstracted to `Option Nat` (the source's `undefined` for an empty
204/zero-length body is `none`). -/
structure ExecResult where
  outcome : Except JsError (Option Nat)
  breaker : BreakerState
  events : List CallEvent
  deriving DecidableEq, Repr

/-- Method `isRetryable` (source lines 516-519): HTTP 429 and 5xx. -/
def isRetryable (statusCode : Nat) : Bool :=
  statusCode == 429 || (decide (500 ≤ statusCode) && decide (statusCode ≤ 599))

/-- Property `response.ok` of fetch: status in the inclusive range
200-299. -/
def responseOk (status : Nat) : Bool :=
  decide (200 ≤ status) && decide (status ≤ 299)

/-- Exit path of the attempt loop with a captured `lastError` (source
lines 472-496): one final `registerFailure`, then the error is thrown. -/
def finalizeFailure (cb : CircuitBreakerOptions) (clock : Nat → Int)
    (k : Nat) (s : BreakerState) (evs : List CallEvent) (e : JsError) :
    ExecResult :=
  { outcome := .error e,
    breaker := registerFailure cb s (clock k),
    events := evs ++ [.failureRecorded] }

/-- Attempt loop of `request` (source lines 300-470), one recursive step
per iteration of `while (attempt <= retries)`.  `cur` is the value of
`attempt` after the increment at the top of the iteration (the 1-indexed
attempt number), `k` counts the `Date.now()` reads the breaker
bookkeeping has performed (the clock is the sequence of values those
reads return), and `fuel` is the number of loop iterations the budget
still permits (`retries + 2 - cur`).  Every path of the source body
breaks, returns or re-enters with `attempt ≤ retries`, so the loop
condition itself never exits the loop; `fuel = 0` is accordingly
unreachable from `request` and is mapped to the source's own unreachable
safeguard (lines 497-506).  The backoff sleep has no semantic effect
here (`calculateRetryDelay` is modelled separately). -/
def requestLoop (retries : Nat) (cb : CircuitBreakerOptions)
    (transport : Nat → TransportOutcome) (clock : Nat → Int) :
    Nat → Nat → Nat → BreakerState → List CallEvent → ExecResult
  | 0, _, _, s, evs =>
    { outcome := .error .loopSafeguard, breaker := s, events := evs }
  | fuel + 1, cur, k, s, evs =>
    let evs1 := evs ++ [.fetchAttempt cur]
    match transport cur with
    | .response status emptyBody parsed =>
      if responseOk status then
        let s1 := registerSuccess cb s
        let evs2 := evs1 ++ [.successRecorded]
        if status = 204 ∨ emptyBody then
          { outcome := .ok none, breaker := s1, events := evs2 }
        else
          match parsed with
          | some v => { outcome := .ok (some v), breaker := s1, events := evs2 }
          | none => finalizeFailure cb clock k s1 evs2 .parseFailure
      else
        let e : JsError :=
          if isRetryable status then .retryable status else .httpTerminal status
        if ¬ isRetryable status ∨ retries < cur then
          finalizeFailure cb clock k s evs1 e
        else
          let s1 := registerFailure cb s (clock k)
          let evs2 := evs1 ++ [.failureRecorded]
          match checkCircuitBreaker cb s1 (clock (k + 1)) with
          | (s2, some ce) =>
            finalizeFailure cb clock (k + 2) s2 evs2 (.breakerRejection ce)
          | (s2, none) =>
            requestLoop retries cb transport clock fuel (cur + 1) (k + 2) s2 evs2
    | .thrown fe =>
      let e : JsError :=
        match fe with
        | .abortErr => .abortError
        | .retryableThrown st => .retryable st
        | .otherError => .fetchFailure
        | .nonError => .unknownThrown
      let canRetry : Bool :=
        match fe with
        | .abortErr => decide (cur ≤ retries)
        | .retryableThrown _ => decide (cur ≤ retries)
        | .otherError => false
        | .nonError => false
      if canRetry then
        let s1 := registerFailure cb s (clock k)
        let evs2 := evs1 ++ [.failureRecorded]
        match checkCircuitBreaker cb s1 (clock (k + 1)) with
        | (s2, some ce) =>
          finalizeFailure cb clock (k + 2) s2 evs2 (.breakerRejection ce)
        | (s2, none) =>
          requestLoop retries cb transport clock fuel (cur + 1) (k + 2) s2 evs2
      else finalizeFailure cb clock k s evs1 e

/-- Method `request` (source lines 233-507) with the collaborators made
explicit: `authOk` is whether `authenticate` resolves, `transport n` the
result of the fetch on the `n`-th attempt, `clock i` the value returned
by the `i`-th `Date.now()` read of the breaker bookkeeping.  URL
construction, header assembly and logging carry no state relevant to the
claims and are omitted. -/
def request (retries : Nat) (cb : CircuitBreakerOptions) (authOk : Bool)
    (transport : Nat → TransportOutcome) (clock : Nat → Int)
    (s : BreakerState) : ExecResult :=
  match requestAdmission cb s (clock 0) with
  | (s1, some e) =>
    { outcome := .error (.breakerRejection e), breaker := s1, events := [] }
  | (s1, none) =>
    if !authOk then
      { outcome := .error .authFailure, breaker := s1,
        events := [.authInvoked] }
    else
      requestLoop retries cb transport clock (retries + 1) 1 1 s1
        [.authInvoked]

-- Helpers: with the breaker disabled every breaker entry point returns
-- immediately.
theorem checkCircuitBreaker_disabled (cb : CircuitBreakerOptions)
    (hdis : cb.enabled = false) (s : BreakerState) (now : Int) :
    checkCircuitBreaker cb s now = (s, none) := by
  simp [checkCircuitBreaker, hdis]

theorem registerSuccess_disabled (cb : CircuitBreakerOptions)
    (hdis : cb.enabled = false) (s : BreakerState) :
    registerSuccess cb s = s := by
  simp [registerSuccess, hdis]

theorem registerFailure_disabled (cb : CircuitBreakerOptions)
    (hdis : cb.enabled = false) (s : BreakerState) (now : Int) :
    registerFailure cb s now = s := by
  simp [registerFailure, hdis]

theorem requestAdmission_disabled (cb : CircuitBreakerOptions)
    (hdis : cb.enabled = false) (s : BreakerState) (now : Int) :
    requestAdmission cb s now = (s, none) := by
  simp [requestAdmission, checkCircuitBreaker_disabled cb hdis, hdis]

-- Helper: the admission path touches only `circuitState` and
-- `halfOpenRequests`, never `failureCount` or `lastFailureTime`.
theorem checkCircuitBreaker_preserves_counters (cb : CircuitBreakerOptions)
    (s : BreakerState) (now : Int) :
    (checkCircuitBreaker cb s now).1.failureCount = s.failureCount ∧
    (checkCircuitBreaker cb s now).1.lastFailureTime = s.lastFailureTime := by
  unfold checkCircuitBreaker
  split_ifs <;> try simp
  all_goals split_ifs <;> simp

theorem requestAdmission_preserves_counters (cb : CircuitBreakerOptions)
    (s : BreakerState) (now : Int) :
    (requestAdmission cb s now).1.failureCount = s.failureCount ∧
    (requestAdmission cb s now).1.lastFailureTime = s.lastFailureTime := by
  have h := checkCircuitBreaker_preserves_counters cb s now
  unfold requestAdmission
  rcases hc : checkCircuitBreaker cb s now with ⟨s1, e⟩
  rw [hc] at h
  simp only at h
  cases e with
  | some e => simp [h.1, h.2]
  | none =>
    by_cases hen : cb.enabled = true ∧ s1.circuitState = CircuitState.halfOpen
    · simp [hen, h.1, h.2]
    · simp [hen, h.1, h.2]

/-- Trace fragment of a run of consecutive failed attempts: attempts
numbered `cur`, `cur + 1`, ..., each followed by its failure
registration. -/
def failSeq (cur : Nat) : Nat → List CallEvent
  | 0 => []
  | fuel + 1 => .fetchAttempt cur :: .failureRecorded :: failSeq (cur + 1) fuel

theorem fetchCount_failSeq (n : Nat) :
    ∀ cur, fetchCount (failSeq cur n) = n := by
  induction n with
  | zero => intro cur; rfl
  | succ m ih =>
    intro cur
    simp only [failSeq, fetchCount, List.filter]
    have := ih (cur + 1)
    simp only [fetchCount] at this
    simp [CallEvent.isFetch, this]

-- Helper: with the breaker disabled and every attempt answered by the
-- same retryable HTTP status, the attempt loop performs one fetch per
-- unit of fuel and exits by throwing the last RetryableError itself.
theorem requestLoop_retryable_const (retries : Nat)
    (cb : CircuitBreakerOptions) (transport : Nat → TransportOutcome)
    (clock : Nat → Int) (st : Nat) (hdis : cb.enabled = false)
    (hrt : isRetryable st = true) (hok : responseOk st = false)
    (htr : ∀ n, ∃ b p, transport n = .response st b p) :
    ∀ fuel cur k s evs, cur + fuel = retries + 2 → 1 ≤ fuel →
      requestLoop retries cb transport clock fuel cur k s evs =
        { outcome := .error (.retryable st), breaker := s,
          events := evs ++ failSeq cur fuel } := by
  intro fuel
  induction fuel with
  | zero => intro cur k s evs _ h1; omega
  | succ f ih =>
    intro cur k s evs hinv _
    obtain ⟨b, p, htr'⟩ := htr cur
    by_cases hbreak : retries < cur
    · have hf : f = 0 := by omega
      subst hf
      simp [requestLoop, htr', hok, hrt, hbreak, finalizeFailure,
        registerFailure_disabled cb hdis, failSeq]
    · have hf : 1 ≤ f := by omega
      have hrec := ih (cur + 1) (k + 2) s (evs ++ [.fetchAttempt cur, .failureRecorded])
        (by omega) hf
      simp only [requestLoop, htr', hok, Bool.false_eq_true, if_false, hrt,
        not_true, false_or, hbreak, if_false,
        registerFailure_disabled cb hdis,
        checkCircuitBreaker_disabled cb hdis]
      rw [show evs ++ [CallEvent.fetchAttempt cur] ++ [CallEvent.failureRecorded] =
        evs ++ [CallEvent.fetchAttempt cur, CallEvent.failureRecorded] by simp]
      rw [hrec]
      simp [failSeq]

/-- C4: with `maxRetries = r` and the breaker disabled (so no admission
is ever rejected), a call against a dependency answering HTTP 503 on
every attempt performs exactly `r + 1` transport attempts — numbered 1
through `r + 1`, each followed by its failure registration — and then
throws; no attempt follows the `(r+1)`-th. -/
theorem retry_budget_exhaustion (retries : Nat) (cb : CircuitBreakerOptions)
    (transport : Nat → TransportOutcome) (clock : Nat → Int)
    (s : BreakerState) (hdis : cb.enabled = false)
    (htr : ∀ n, ∃ b p, transport n = .response 503 b p) :
    (request retries cb true transport clock s).events =
      .authInvoked :: failSeq 1 (retries + 1) ∧
    fetchCount (request retries cb true transport clock s).events =
      retries + 1 ∧
    (request retries cb true transport clock s).outcome =
      .error (.retryable 503) := by
  have hloop := requestLoop_retryable_const retries cb transport clock 503
    hdis (by decide) (by decide) htr (retries + 1) 1 1 s [.authInvoked]
    (by omega) (by omega)
  have hreq : request retries cb true transport clock s =
      requestLoop retries cb transport clock (retries + 1) 1 1 s
        [.authInvoked] := by
    simp [request, requestAdmission_disabled cb hdis]
  rw [hreq, hloop]
  refine ⟨by simp, ?_, rfl⟩
  have hstep : fetchCount (CallEvent.authInvoked :: failSeq 1 (retries + 1)) =
      fetchCount (failSeq 1 (retries + 1)) := by
    simp [fetchCount, List.filter, CallEvent.isFetch]
  simp only [List.singleton_append, hstep, fetchCount_failSeq]

/-- C4 witness at `r = 2`. -/
theorem retry_budget_exhaustion_witness :
    ((⟨false, 5, 30000, 1⟩ : CircuitBreakerOptions).enabled = false ∧
     ∀ n : Nat, ∃ b p,
       (fun _ : Nat => TransportOutcome.response 503 false none) n =
         .response 503 b p) ∧
    ((request 2 ⟨false, 5, 30000, 1⟩ true
        (fun _ => .response 503 false none) (fun _ => 0)
        initBreakerState).events = .authInvoked :: failSeq 1 (2 + 1) ∧
     fetchCount (request 2 ⟨false, 5, 30000, 1⟩ true
        (fun _ => .response 503 false none) (fun _ => 0)
        initBreakerState).events = 2 + 1 ∧
     (request 2 ⟨false, 5, 30000, 1⟩ true
        (fun _ => .response 503 false none) (fun _ => 0)
        initBreakerState).outcome = .error (.retryable 503)) :=
  ⟨⟨rfl, fun _ => ⟨false, none, rfl⟩⟩,
   retry_budget_exhaustion 2 _ _ _ _ rfl (fun _ => ⟨false, none, rfl⟩)⟩

/-- C2 counterexample: with `maxRetries = 1` and both attempts answering
503, the propagated error is the bare `RetryableError` for status 503 —
not a `RetriesExhaustedError` wrapping it; no such wrapper class exists
anywhere in the source. -/
theorem exhausted_retries_unwrapped_cex :
    (request 1 ⟨false, 5, 30000, 1⟩ true (fun _ => .response 503 false none)
      (fun _ => 0) initBreakerState).outcome = .error (.retryable 503) ∧
    (request 1 ⟨false, 5, 30000, 1⟩ true (fun _ => .response 503 false none)
      (fun _ => 0) initBreakerState).outcome ≠
      .error (.retriesExhausted (.retryable 503)) ∧
    JsError.isWrapped (.retryable 503) = false := by
  refine ⟨by decide, by decide, rfl⟩

/-- C2 (amended): when every attempt fails with the same retryable HTTP
status and the attempt budget is used up, the error propagated to the
caller is the final underlying retryable failure itself — the last
`RetryableError` — with no wrapper around it. -/
theorem exhausted_retries_propagate_last_error (retries : Nat)
    (cb : CircuitBreakerOptions) (transport : Nat → TransportOutcome)
    (clock : Nat → Int) (s : BreakerState) (st : Nat)
    (hdis : cb.enabled = false) (hrt : isRetryable st = true)
    (hok : responseOk st = false)
    (htr : ∀ n, ∃ b p, transport n = .response st b p) :
    (request retries cb true transport clock s).outcome =
      .error (.retryable st) ∧
    JsError.isWrapped (.retryable st) = false := by
  have hloop := requestLoop_retryable_const retries cb transport clock st
    hdis hrt hok htr (retries + 1) 1 1 s [.authInvoked] (by omega) (by omega)
  have hreq : request retries cb true transport clock s =
      requestLoop retries cb transport clock (retries + 1) 1 1 s
        [.authInvoked] := by
    simp [request, requestAdmission_disabled cb hdis]
  rw [hreq, hloop]
  exact ⟨rfl, rfl⟩

/-- C2 witness at `r = 1`, status 503. -/
theorem exhausted_retries_propagate_last_error_witness :
    ((⟨false, 5, 30000, 1⟩ : CircuitBreakerOptions).enabled = false ∧
     isRetryable 503 = true ∧ responseOk 503 = false ∧
     ∀ n : Nat, ∃ b p,
       (fun _ : Nat => TransportOutcome.response 503 false none) n =
         .response 503 b p) ∧
    ((request 1 ⟨false, 5, 30000, 1⟩ true
        (fun _ => .response 503 false none) (fun _ => 0)
        initBreakerState).outcome = .error (.retryable 503) ∧
     JsError.isWrapped (.retryable 503) = false) :=
  ⟨⟨rfl, by decide, by decide, fun _ => ⟨false, none, rfl⟩⟩,
   exhausted_retries_propagate_last_error 1 _ _ _ _ 503 rfl (by decide)
     (by decide) (fun _ => ⟨false, none, rfl⟩)⟩

/-- C6: when authentication fails (after an admission that passed), the
call fails fast with the auth error: zero transport attempts, exactly
one authentication invocation, no failure registration, and the
breaker's `failureCount` and `lastFailureTime` unchanged. -/
theorem auth_failure_fails_fast (retries : Nat) (cb : CircuitBreakerOptions)
    (transport : Nat → TransportOutcome) (clock : Nat → Int)
    (s : BreakerState)
    (hadm : (requestAdmission cb s (clock 0)).2 = none) :
    request retries cb false transport clock s =
      { outcome := .error .authFailure,
        breaker := (requestAdmission cb s (clock 0)).1,
        events := [.authInvoked] } ∧
    (request retries cb false transport clock s).breaker.failureCount =
      s.failureCount ∧
    (request retries cb false transport clock s).breaker.lastFailureTime =
      s.lastFailureTime ∧
    fetchCount (request retries cb false transport clock s).events = 0 ∧
    (request retries cb false transport clock s).events.count
      CallEvent.failureRecorded = 0 ∧
    (request retries cb false transport clock s).events.count
      CallEvent.authInvoked = 1 := by
  have hp := requestAdmission_preserves_counters cb s (clock 0)
  have hreq : request retries cb false transport clock s =
      { outcome := .error .authFailure,
        breaker := (requestAdmission cb s (clock 0)).1,
        events := [.authInvoked] } := by
    unfold request
    rcases hr : requestAdmission cb s (clock 0) with ⟨s1, e⟩
    rw [hr] at hadm
    simp only at hadm
    subst hadm
    simp [hr]
  rw [hreq]
  exact ⟨rfl, hp.1, hp.2, rfl, rfl, rfl⟩

/-- C6 witness: disabled breaker, failing authentication. -/
theorem auth_failure_fails_fast_witness :
    ((requestAdmission ⟨false, 5, 30000, 1⟩ initBreakerState
        ((fun _ : Nat => (0 : Int)) 0)).2 = none) ∧
    (request 3 ⟨false, 5, 30000, 1⟩ false
        (fun _ => .response 200 false (some 7)) (fun _ => 0)
        initBreakerState =
      { outcome := .error .authFailure,
        breaker := (requestAdmission ⟨false, 5, 30000, 1⟩ initBreakerState
          ((fun _ : Nat => (0 : Int)) 0)).1,
        events := [.authInvoked] } ∧
     (request 3 ⟨false, 5, 30000, 1⟩ false
        (fun _ => .response 200 false (some 7)) (fun _ => 0)
        initBreakerState).breaker.failureCount =
       initBreakerState.failureCount ∧
     (request 3 ⟨false, 5, 30000, 1⟩ false
        (fun _ => .response 200 false (some 7)) (fun _ => 0)
        initBreakerState).breaker.lastFailureTime =
       initBreakerState.lastFailureTime ∧
     fetchCount (request 3 ⟨false, 5, 30000, 1⟩ false
        (fun _ => .response 200 false (some 7)) (fun _ => 0)
        initBreakerState).events = 0 ∧
     (request 3 ⟨false, 5, 30000, 1⟩ false
        (fun _ => .response 200 false (some 7)) (fun _ => 0)
        initBreakerState).events.count CallEvent.failureRecorded = 0 ∧
     (request 3 ⟨false, 5, 30000, 1⟩ false
        (fun _ => .response 200 false (some 7)) (fun _ => 0)
        initBreakerState).events.count CallEvent.authInvoked = 1) :=
  ⟨by decide, auth_failure_fails_fast 3 _ _ _ _ (by decide)⟩

/-- C7: a 2xx response whose body fails to parse ends the call
terminally after exactly one transport attempt with the parse error,
`registerSuccess` recorded on receipt of the 2xx and `registerFailure`
recorded before the error reaches the caller; on a successful parse,
`registerSuccess` is recorded before the parsed body is returned. -/
theorem parse_failure_terminal_and_counted (retries : Nat)
    (cb : CircuitBreakerOptions)
    (transportBad transportGood : Nat → TransportOutcome)
    (clock : Nat → Int) (s : BreakerState) (status v : Nat)
    (hadm : (requestAdmission cb s (clock 0)).2 = none)
    (h2xx : responseOk status = true) (h204 : status ≠ 204)
    (hbad : transportBad 1 = .response status false none)
    (hgood : transportGood 1 = .response status false (some v)) :
    request retries cb true transportBad clock s =
      { outcome := .error .parseFailure,
        breaker := registerFailure cb
          (registerSuccess cb (requestAdmission cb s (clock 0)).1)
          (clock 1),
        events := [.authInvoked, .fetchAttempt 1, .successRecorded,
          .failureRecorded] } ∧
    request retries cb true transportGood clock s =
      { outcome := .ok (some v),
        breaker := registerSuccess cb (requestAdmission cb s (clock 0)).1,
        events := [.authInvoked, .fetchAttempt 1, .successRecorded] } := by
  constructor
  · unfold request
    rcases hr : requestAdmission cb s (clock 0) with ⟨s1, e⟩
    rw [hr] at hadm
    simp only at hadm
    subst hadm
    simp only [Bool.not_true, Bool.false_eq_true, if_false, hr]
    simp only [requestLoop, hbad, h2xx, if_true]
    simp [h204, finalizeFailure]
  · unfold request
    rcases hr : requestAdmission cb s (clock 0) with ⟨s1, e⟩
    rw [hr] at hadm
    simp only at hadm
    subst hadm
    simp only [Bool.not_true, Bool.false_eq_true, if_false, hr]
    simp only [requestLoop, hgood, h2xx, if_true]
    simp [h204]

/-- C7 witness: status 200, parsed value 7, disabled breaker. -/
theorem parse_failure_terminal_and_counted_witness :
    ((requestAdmission ⟨false, 5, 30000, 1⟩ initBreakerState
        ((fun _ : Nat => (0 : Int)) 0)).2 = none ∧
     responseOk 200 = true ∧ (200 : Nat) ≠ 204 ∧
     (fun _ : Nat => TransportOutcome.response 200 false none) 1 =
       .response 200 false none ∧
     (fun _ : Nat => TransportOutcome.response 200 false (some 7)) 1 =
       .response 200 false (some 7)) ∧
    (request 3 ⟨false, 5, 30000, 1⟩ true
        (fun _ => .response 200 false none) (fun _ => 0) initBreakerState =
      { outcome := .error .parseFailure,
        breaker := registerFailure ⟨false, 5, 30000, 1⟩
          (registerSuccess ⟨false, 5, 30000, 1⟩
            (requestAdmission ⟨false, 5, 30000, 1⟩ initBreakerState
              ((fun _ : Nat => (0 : Int)) 0)).1)
          ((fun _ : Nat => (0 : Int)) 1),
        events := [.authInvoked, .fetchAttempt 1, .successRecorded,
          .failureRecorded] } ∧
     request 3 ⟨false, 5, 30000, 1⟩ true
        (fun _ => .response 200 false (some 7)) (fun _ => 0)
        initBreakerState =
      { outcome := .ok (some 7),
        breaker := registerSuccess ⟨false, 5, 30000, 1⟩
          (requestAdmission ⟨false, 5, 30000, 1⟩ initBreakerState
            ((fun _ : Nat => (0 : Int)) 0)).1,
        events := [.authInvoked, .fetchAttempt 1, .successRecorded] }) :=
  ⟨⟨by decide, by decide, by decide, rfl, rfl⟩,
   parse_failure_terminal_and_counted 3 _ _ _ _ _ 200 7 (by decide)
     (by decide) (by decide) rfl rfl⟩
